import Mathlib

/-!
Shallow embedding of `src/jpeg/decoder.rs`: the JPEG decoding adapter.

Bytes are modelled as `Nat` (with range hypotheses `< 256` where a theorem
needs them); `u16` arithmetic in `cmyk_to_rgb` never overflows (products are
at most 255 * 255), so plain `Nat` arithmetic with an explicit `% 256` for
the final `as u8` narrowing cast is a faithful model. Panics (`assert_eq!`,
`panic!`, `copy_from_slice` length mismatch) are modelled as `Option`/`Except`
failure values; the underlying `jpeg::Decoder` black box is modelled by the
metadata it probes and the result its `decode()` call would return.
-/

/-- `jpeg::PixelFormat` (the subset used by the adapter). -/
inductive PixelFormat where
  | L8
  | RGB24
  | CMYK32
deriving DecidableEq, Repr

/-- `crate::color::ColorType` (the subset used by the adapter). -/
inductive ColorType where
  | L8
  | Rgb8
deriving DecidableEq, Repr

/-- `crate::image::ImageFormat` (only Jpeg matters to this adapter). -/
inductive ImageFormat where
  | Jpeg
  | Png
deriving DecidableEq, Repr

/-- `crate::error::ImageFormatHint`: `ImageFormat::Jpeg.into()` yields
`ImageFormatHint.Exact ImageFormat.Jpeg`. -/
inductive ImageFormatHint where
  | Exact : ImageFormat → ImageFormatHint
deriving DecidableEq, Repr

/-- An `std::io::Error` value, kept abstract: only identity matters. -/
structure IoFailure where
  msg : String
deriving DecidableEq, Repr

/-- A `jpeg::UnsupportedFeature` value; `debugRepr` stands for its
`format!("{:?}", desc)` rendering. -/
structure UnsupportedFeature where
  debugRepr : String
deriving DecidableEq, Repr

/-- `jpeg::Error`, the bitstream decoder's error taxonomy. The `Format`
payload is its message string; `Internal` carries its boxed error,
kept abstract as a string. -/
inductive JpegError where
  | Format (msg : String)
  | Unsupported (desc : UnsupportedFeature)
  | IoErr (err : IoFailure)
  | Internal (err : String)
deriving DecidableEq, Repr

/-- The boxed underlying error stored inside a `DecodingError`: the `Format`
arm of `from_jpeg` boxes the whole `jpeg::Error`, the `Internal` arm boxes
the inner error. -/
inductive BoxedError where
  | ofJpeg : JpegError → BoxedError
  | ofInner : String → BoxedError
deriving DecidableEq, Repr

/-- `crate::error::UnsupportedErrorKind` (the arm used here). -/
inductive UnsupportedErrorKind where
  | GenericFeature : String → UnsupportedErrorKind
deriving DecidableEq, Repr

/-- `crate::error::ImageError` (the arms used here). `Decoding` carries the
format hint from `DecodingError::new`; `Unsupported` the hint and kind from
`UnsupportedError::from_format_and_kind`. -/
inductive ImageError where
  | Decoding : ImageFormatHint → BoxedError → ImageError
  | Unsupported : ImageFormatHint → UnsupportedErrorKind → ImageError
  | IoError : IoFailure → ImageError
deriving DecidableEq, Repr

/-- The `format!("{:?}", desc)` rendering of an `UnsupportedFeature`. -/
def formatDebug (desc : UnsupportedFeature) : String :=
  desc.debugRepr

/-- `ImageError::from_jpeg` (decoder.rs lines 125-142). -/
def ImageError.from_jpeg : JpegError → ImageError
  | .Format msg => .Decoding (.Exact .Jpeg) (.ofJpeg (.Format msg))
  | .Unsupported desc =>
      .Unsupported (.Exact .Jpeg) (.GenericFeature (formatDebug desc))
  | .IoErr err => .IoError err
  | .Internal err => .Decoding (.Exact .Jpeg) (.ofInner err)

/-- `ColorType::from_jpeg` (decoder.rs lines 114-123). The `panic!()` on
`CMYK32` is modelled as `none`. -/
def ColorType.from_jpeg : PixelFormat → Option ColorType
  | .L8 => some .L8
  | .RGB24 => some .Rgb8
  | .CMYK32 => none

/-- One iteration of the pixel loop in `cmyk_to_rgb`: complement each byte
in `u16`, multiply, divide by 255, and narrow the result `as u8`
(the `% 256`). -/
def cmykPixelToRgb (p0 p1 p2 p3 : Nat) : List Nat :=
  let c := 255 - p0
  let m := 255 - p1
  let y := 255 - p2
  let k := 255 - p3
  [k * c / 255 % 256, k * m / 255 % 256, k * y / 255 % 256]

/-- `cmyk_to_rgb` (decoder.rs lines 89-112): `chunks_exact(4)` walks the
complete 4-byte groups (a trailing partial group is dropped) and writes one
3-byte group per input group. -/
def cmyk_to_rgb : List Nat → List Nat
  | p0 :: p1 :: p2 :: p3 :: rest => cmykPixelToRgb p0 p1 p2 p3 ++ cmyk_to_rgb rest
  | _ => []

/-- `jpeg::ImageInfo`: the metadata the bitstream decoder probes. -/
structure ImageInfo where
  width : Nat
  height : Nat
  pixel_format : PixelFormat
deriving DecidableEq, Repr

/-- The black-box `jpeg::Decoder` after a successful `read_info()`: the
probed metadata its `info()` reports, and the outcome its `decode()` call
would produce. -/
structure JpegSource where
  info : ImageInfo
  decodeResult : Except JpegError (List Nat)

/-- `JpegDecoder`: the bitstream decoder plus the (normalized) metadata
copied out at construction. -/
structure JpegDecoder where
  decoder : JpegSource
  metadata : ImageInfo

/-- `JpegDecoder::new` (decoder.rs lines 20-35). The argument models the
outcome of `read_info()`: an error, or the successfully probed source. On
success the metadata copy has `CMYK32` rewritten to `RGB24`. -/
def JpegDecoder.new : Except JpegError JpegSource → Except ImageError JpegDecoder
  | .error e => .error (ImageError.from_jpeg e)
  | .ok src =>
      let metadata :=
        if src.info.pixel_format = PixelFormat.CMYK32 then
          { src.info with pixel_format := PixelFormat.RGB24 }
        else src.info
      .ok { decoder := src, metadata := metadata }

/-- `dimensions` (decoder.rs lines 57-59). -/
def JpegDecoder.dimensions (d : JpegDecoder) : Nat × Nat :=
  (d.metadata.width, d.metadata.height)

/-- `color_type` (decoder.rs lines 61-63): `none` models the `panic!()`
inside `ColorType::from_jpeg`. -/
def JpegDecoder.color_type (d : JpegDecoder) : Option ColorType :=
  ColorType.from_jpeg d.metadata.pixel_format

/-- Modelled from the spec: the per-pixel byte count of a host color type
(`channels_of`); the `crate::color` source is not under src/. -/
def ColorType.channels : ColorType → Nat
  | .L8 => 1
  | .Rgb8 => 3

/-- Modelled from the spec: the host trait's required buffer size,
`width * height * channels_of(normalized_format)`; the `ImageDecoder` trait
default `total_bytes` is not under src/. It is `none` when `color_type`
would panic. -/
def JpegDecoder.total_bytes (d : JpegDecoder) : Option Nat :=
  d.color_type.map fun ct => d.metadata.width * d.metadata.height * ct.channels

/-- The shared post-decode step of `into_reader` and `read_image`
(decoder.rs lines 66-70 and 78-82): convert if and only if the bitstream
decoder's own (pre-normalization) pixel format is `CMYK32`. -/
def convertPixels (pf : PixelFormat) (data : List Nat) : List Nat :=
  match pf with
  | .CMYK32 => cmyk_to_rgb data
  | _ => data

/-- A `Cursor<Vec<u8>>`: buffer plus read position. -/
structure Cursor where
  buf : List Nat
  pos : Nat
deriving DecidableEq, Repr

/-- `JpegReader` wraps a `Cursor<Vec<u8>>`. -/
abbrev JpegReader := Cursor

/-- `Cursor::read_to_end`: append everything after the position to `dest`,
advance the position by the amount read, return the new cursor, the new
destination, and the byte count read. -/
def Cursor.read_to_end (c : Cursor) (dest : List Nat) : Cursor × List Nat × Nat :=
  let extra := c.buf.drop c.pos
  (⟨c.buf, c.pos + extra.length⟩, dest ++ extra, extra.length)

/-- `JpegReader::read_to_end` (decoder.rs lines 44-51): on a fresh cursor
and an empty destination, `mem::swap` hands the buffer over instead of
copying; otherwise defer to `Cursor::read_to_end`. -/
def JpegReader.read_to_end (c : Cursor) (dest : List Nat) : Cursor × List Nat × Nat :=
  if c.pos = 0 ∧ dest = [] then
    (⟨dest, c.pos⟩, c.buf, c.buf.length)
  else
    Cursor.read_to_end c dest

/-- `into_reader` (decoder.rs lines 65-73): decode, convert when the raw
format was `CMYK32`, wrap in a fresh cursor. -/
def JpegDecoder.into_reader (d : JpegDecoder) : Except ImageError JpegReader :=
  match d.decoder.decodeResult with
  | .error e => .error (ImageError.from_jpeg e)
  | .ok data => .ok ⟨convertPixels d.decoder.info.pixel_format data, 0⟩

/-- The two panic points of `read_image`: the `assert_eq!` on the buffer
length, and the `copy_from_slice` length check. -/
inductive Panic where
  | assertFailed
  | copyMismatch
deriving DecidableEq, Repr

/-- `read_image` (decoder.rs lines 75-86): assert the buffer length equals
`total_bytes`, decode, convert when the raw format was `CMYK32`, and copy
into the buffer (`copy_from_slice` panics unless lengths agree; the result
list models the buffer's final contents). -/
def JpegDecoder.read_image (d : JpegDecoder) (buf : List Nat) :
    Except Panic (Except ImageError (List Nat)) :=
  if some buf.length = d.total_bytes then
    match d.decoder.decodeResult with
    | .error e => .ok (.error (ImageError.from_jpeg e))
    | .ok data =>
        if (convertPixels d.decoder.info.pixel_format data).length = buf.length then
          .ok (.ok (convertPixels d.decoder.info.pixel_format data))
        else .error .copyMismatch
  else .error .assertFailed

/-- A concrete grayscale source: 1x1, decode succeeds with one byte. -/
def srcL8 : JpegSource :=
  ⟨⟨1, 1, .L8⟩, .ok [7]⟩

/-- The decoder `JpegDecoder.new (.ok srcL8)` constructs. -/
def decL8 : JpegDecoder :=
  ⟨srcL8, ⟨1, 1, .L8⟩⟩

/-- A concrete CMYK source: 1x1, decode succeeds with one 4-byte sample. -/
def srcCmyk : JpegSource :=
  ⟨⟨1, 1, .CMYK32⟩, .ok [0, 0, 0, 0]⟩

/-- The decoder `JpegDecoder.new (.ok srcCmyk)` constructs: metadata
normalized to `RGB24`. -/
def decCmyk : JpegDecoder :=
  ⟨srcCmyk, ⟨1, 1, .RGB24⟩⟩

/-- Helper: the quotient in the conversion never exceeds 255, whatever the
input bytes are (`Nat` truncated subtraction already caps the factors). -/
theorem div255_le (a b : Nat) : (255 - a) * (255 - b) / 255 ≤ 255 := by
  have h : (255 - a) * (255 - b) ≤ 255 * 255 :=
    Nat.mul_le_mul (Nat.sub_le 255 a) (Nat.sub_le 255 b)
  have h2 : (255 - a) * (255 - b) / 255 ≤ 255 * 255 / 255 :=
    Nat.div_le_div_right h
  simpa using h2

/-- Helper: what a successful `JpegDecoder.new` produces. -/
theorem new_ok_spec (src : JpegSource) (d : JpegDecoder)
    (h : JpegDecoder.new (.ok src) = .ok d) :
    d.decoder = src ∧
    d.metadata = (if src.info.pixel_format = PixelFormat.CMYK32 then
      { src.info with pixel_format := PixelFormat.RGB24 } else src.info) := by
  obtain ⟨dec, meta⟩ := d
  simp only [JpegDecoder.new, Except.ok.injEq, JpegDecoder.mk.injEq] at h
  exact ⟨h.1.symm, h.2.symm⟩

/-- Helper: fewer than four bytes produce no output at all. -/
theorem cmyk_to_rgb_short : ∀ extra : List Nat,
    extra.length < 4 → cmyk_to_rgb extra = []
  | [], _ => rfl
  | [_], _ => rfl
  | [_, _], _ => rfl
  | [_, _, _], _ => rfl
  | _ :: _ :: _ :: _ :: _, h => absurd h (by simp)

/-- Helper: the output length on the complete groups of the input. -/
theorem cmyk_to_rgb_length : ∀ input : List Nat,
    (cmyk_to_rgb input).length = 3 * (input.length / 4)
  | [] => rfl
  | [_] => by simp [cmyk_to_rgb]
  | [_, _] => by simp [cmyk_to_rgb]
  | [_, _, _] => by simp [cmyk_to_rgb]
  | _ :: _ :: _ :: _ :: rest => by
      have ih := cmyk_to_rgb_length rest
      simp [cmyk_to_rgb, cmykPixelToRgb] at ih ⊢
      omega

/-- Helper: a trailing partial group changes nothing. -/
theorem cmyk_to_rgb_append_partial : ∀ input extra : List Nat,
    input.length % 4 = 0 → extra.length < 4 →
    cmyk_to_rgb (input ++ extra) = cmyk_to_rgb input
  | [], extra => by
      intro _ hlt
      simpa using cmyk_to_rgb_short extra hlt
  | [_], extra => by intro h _; simp at h
  | [_, _], extra => by intro h _; simp at h
  | [_, _, _], extra => by intro h _; simp at h
  | a :: b :: c :: d :: rest, extra => by
      intro h4 hlt
      have hr : rest.length % 4 = 0 := by simp at h4; omega
      have ih := cmyk_to_rgb_append_partial rest extra hr hlt
      simp [cmyk_to_rgb, ih]

/-- C2: every complete 4-byte group (c, m, y, k) of bytes is converted to
the triple r = (255-k)*(255-c)/255, g = (255-k)*(255-m)/255,
b = (255-k)*(255-y)/255, with exact truncating integer arithmetic, the
remaining input being converted recursively. -/
theorem cmyk_group_formula (c m y k : Nat) (rest : List Nat)
    (hc : c < 256) (hm : m < 256) (hy : y < 256) (hk : k < 256) :
    cmyk_to_rgb (c :: m :: y :: k :: rest) =
      ((255 - k) * (255 - c) / 255) :: ((255 - k) * (255 - m) / 255) ::
      ((255 - k) * (255 - y) / 255) :: cmyk_to_rgb rest := by
  have r1 := div255_le k c
  have r2 := div255_le k m
  have r3 := div255_le k y
  simp only [cmyk_to_rgb, cmykPixelToRgb, List.cons_append, List.nil_append]
  rw [Nat.mod_eq_of_lt (by omega), Nat.mod_eq_of_lt (by omega),
    Nat.mod_eq_of_lt (by omega)]

/-- Witness for C2 at the concrete group (1, 2, 3, 4). -/
theorem cmyk_group_formula_witness :
    cmyk_to_rgb (1 :: 2 :: 3 :: 4 :: []) =
      ((255 - 4) * (255 - 1) / 255) :: ((255 - 4) * (255 - 2) / 255) ::
      ((255 - 4) * (255 - 3) / 255) :: cmyk_to_rgb [] :=
  cmyk_group_formula 1 2 3 4 [] (by decide) (by decide) (by decide) (by decide)

/-- C4: the output has length exactly 3 * (input length / 4) for every
input, and a trailing partial group (input length not a multiple of 4) is
silently dropped: appending fewer than four bytes to whole groups changes
nothing. -/
theorem cmyk_length_law :
    (∀ input : List Nat, (cmyk_to_rgb input).length = 3 * (input.length / 4)) ∧
    (∀ input extra : List Nat, input.length % 4 = 0 → extra.length < 4 →
      cmyk_to_rgb (input ++ extra) = cmyk_to_rgb input) :=
  ⟨cmyk_to_rgb_length, cmyk_to_rgb_append_partial⟩

/-- Witness for C4: a 5-byte input yields 3 bytes, and the fifth byte is
dropped. -/
theorem cmyk_length_law_witness :
    (cmyk_to_rgb [9, 9, 9, 9, 9]).length = 3 * ([9, 9, 9, 9, 9].length / 4) ∧
    cmyk_to_rgb ([1, 2, 3, 4] ++ [9]) = cmyk_to_rgb [1, 2, 3, 4] :=
  ⟨cmyk_length_law.1 [9, 9, 9, 9, 9],
   cmyk_length_law.2 [1, 2, 3, 4] [9] (by decide) (by decide)⟩

/-- C5: the all-zero group maps to (255, 255, 255), and any group with
k = 255 maps to (0, 0, 0) whatever c, m, y are. -/
theorem cmyk_extremes (c m y : Nat) (hc : c < 256) (hm : m < 256) (hy : y < 256) :
    cmyk_to_rgb [0, 0, 0, 0] = [255, 255, 255] ∧
    cmyk_to_rgb [c, m, y, 255] = [0, 0, 0] := by
  constructor
  · decide
  · simp [cmyk_to_rgb, cmykPixelToRgb]

/-- Witness for C5 at the concrete group (10, 20, 30, 255). -/
theorem cmyk_extremes_witness :
    cmyk_to_rgb [0, 0, 0, 0] = [255, 255, 255] ∧
    cmyk_to_rgb [10, 20, 30, 255] = [0, 0, 0] :=
  ⟨(cmyk_extremes 10 20 30 (by decide) (by decide) (by decide)).1,
   (cmyk_extremes 10 20 30 (by decide) (by decide) (by decide)).2⟩

/-- C9: for byte inputs each intermediate product is at most
255 * 255 = 65025 (so 16-bit arithmetic cannot wrap), each quotient is at
most 255, and therefore the narrowing cast to u8 in `cmykPixelToRgb`
(the `% 256`) is value-preserving. -/
theorem cmyk_no_overflow (c m y k : Nat)
    (hc : c < 256) (hm : m < 256) (hy : y < 256) (hk : k < 256) :
    (255 - k) * (255 - c) ≤ 65025 ∧
    (255 - k) * (255 - m) ≤ 65025 ∧
    (255 - k) * (255 - y) ≤ 65025 ∧
    (255 - k) * (255 - c) / 255 ≤ 255 ∧
    (255 - k) * (255 - m) / 255 ≤ 255 ∧
    (255 - k) * (255 - y) / 255 ≤ 255 ∧
    cmykPixelToRgb c m y k =
      [(255 - k) * (255 - c) / 255, (255 - k) * (255 - m) / 255,
       (255 - k) * (255 - y) / 255] := by
  have p1 : (255 - k) * (255 - c) ≤ 255 * 255 :=
    Nat.mul_le_mul (Nat.sub_le 255 k) (Nat.sub_le 255 c)
  have p2 : (255 - k) * (255 - m) ≤ 255 * 255 :=
    Nat.mul_le_mul (Nat.sub_le 255 k) (Nat.sub_le 255 m)
  have p3 : (255 - k) * (255 - y) ≤ 255 * 255 :=
    Nat.mul_le_mul (Nat.sub_le 255 k) (Nat.sub_le 255 y)
  have r1 := div255_le k c
  have r2 := div255_le k m
  have r3 := div255_le k y
  refine ⟨by omega, by omega, by omega, r1, r2, r3, ?_⟩
  simp only [cmykPixelToRgb]
  rw [Nat.mod_eq_of_lt (by omega), Nat.mod_eq_of_lt (by omega),
    Nat.mod_eq_of_lt (by omega)]

/-- Witness for C9 at the concrete group (1, 2, 3, 4). -/
theorem cmyk_no_overflow_witness :
    (255 - 4) * (255 - 1) ≤ 65025 ∧
    (255 - 4) * (255 - 2) ≤ 65025 ∧
    (255 - 4) * (255 - 3) ≤ 65025 ∧
    (255 - 4) * (255 - 1) / 255 ≤ 255 ∧
    (255 - 4) * (255 - 2) / 255 ≤ 255 ∧
    (255 - 4) * (255 - 3) / 255 ≤ 255 ∧
    cmykPixelToRgb 1 2 3 4 =
      [(255 - 4) * (255 - 1) / 255, (255 - 4) * (255 - 2) / 255,
       (255 - 4) * (255 - 3) / 255] :=
  cmyk_no_overflow 1 2 3 4 (by decide) (by decide) (by decide) (by decide)

/-- C6: the error translator is a pure total mapping: a format error maps
to a Decoding error tagged with the JPEG format, an unsupported-feature
error maps to an Unsupported error of generic-feature kind carrying the
feature's description, an I/O failure passes through unchanged, and an
internal error maps to a Decoding error tagged with the JPEG format. -/
theorem from_jpeg_error_mapping :
    (∀ msg, ImageError.from_jpeg (.Format msg) =
      .Decoding (.Exact .Jpeg) (.ofJpeg (.Format msg))) ∧
    (∀ desc, ImageError.from_jpeg (.Unsupported desc) =
      .Unsupported (.Exact .Jpeg) (.GenericFeature (formatDebug desc))) ∧
    (∀ err, ImageError.from_jpeg (.IoErr err) = .IoError err) ∧
    (∀ err, ImageError.from_jpeg (.Internal err) =
      .Decoding (.Exact .Jpeg) (.ofInner err)) :=
  ⟨fun _ => rfl, fun _ => rfl, fun _ => rfl, fun _ => rfl⟩

/-- C3: construction rewrites a probed CMYK32 format to RGB24 in the stored
metadata, passes every other format through unchanged (and keeps the
dimensions), so a decoder probed as CMYK32 reports the RGB color type. -/
theorem format_normalization (src : JpegSource) (d : JpegDecoder)
    (h : JpegDecoder.new (.ok src) = .ok d) :
    d.metadata.width = src.info.width ∧
    d.metadata.height = src.info.height ∧
    d.metadata.pixel_format ≠ PixelFormat.CMYK32 ∧
    (src.info.pixel_format = PixelFormat.CMYK32 →
      d.metadata.pixel_format = PixelFormat.RGB24 ∧
      d.color_type = some ColorType.Rgb8) ∧
    (src.info.pixel_format ≠ PixelFormat.CMYK32 → d.metadata = src.info) := by
  obtain ⟨-, hm⟩ := new_ok_spec src d h
  by_cases hpf : src.info.pixel_format = PixelFormat.CMYK32 <;>
    simp only [hpf, if_pos, if_neg, ite_true, ite_false] at hm <;>
    simp [hm, hpf, JpegDecoder.color_type, ColorType.from_jpeg]

/-- Witness for C3 at a concrete CMYK32-probed source. -/
theorem format_normalization_witness :
    decCmyk.metadata.pixel_format ≠ PixelFormat.CMYK32 ∧
    decCmyk.metadata.pixel_format = PixelFormat.RGB24 ∧
    decCmyk.color_type = some ColorType.Rgb8 := by
  have h := format_normalization srcCmyk decCmyk rfl
  exact ⟨h.2.2.1, (h.2.2.2.1 rfl).1, (h.2.2.2.1 rfl).2⟩

/-- C8: `ColorType::from_jpeg` fails fatally (modelled as `none`) on the
raw CMYK32 format, and that branch is unreachable for any decoder the
constructor produced: its stored format is never CMYK32, so `color_type`
always yields a value. -/
theorem color_type_panic_unreachable (src : JpegSource) (d : JpegDecoder)
    (h : JpegDecoder.new (.ok src) = .ok d) :
    ColorType.from_jpeg PixelFormat.CMYK32 = none ∧
    d.metadata.pixel_format ≠ PixelFormat.CMYK32 ∧
    d.color_type ≠ none := by
  obtain ⟨-, hm⟩ := new_ok_spec src d h
  refine ⟨rfl, ?_, ?_⟩ <;>
    by_cases hpf : src.info.pixel_format = PixelFormat.CMYK32 <;>
      simp only [hpf, ite_true, ite_false] at hm <;>
      cases hp : src.info.pixel_format <;>
        simp_all [JpegDecoder.color_type, ColorType.from_jpeg]

/-- Witness for C8 at a concrete CMYK32-probed source. -/
theorem color_type_panic_unreachable_witness :
    ColorType.from_jpeg PixelFormat.CMYK32 = none ∧
    decCmyk.metadata.pixel_format ≠ PixelFormat.CMYK32 ∧
    decCmyk.color_type ≠ none :=
  color_type_panic_unreachable srcCmyk decCmyk rfl

/-- C7: `read_image` requires the buffer length to equal `total_bytes`
exactly; a violation is the fatal `assert_eq!` (not a recoverable error
value), and when the lengths agree the assertion never fires. -/
theorem read_image_precondition (d : JpegDecoder) (n : Nat) (buf : List Nat)
    (h : d.total_bytes = some n) :
    (buf.length ≠ n → d.read_image buf = .error .assertFailed) ∧
    (buf.length = n → d.read_image buf ≠ .error .assertFailed) := by
  unfold JpegDecoder.read_image
  rw [h]
  constructor
  · intro hne
    rw [if_neg (by simpa using hne)]
  · intro heq
    rw [if_pos (by simpa using heq)]
    split
    · intro hcon
      exact Except.noConfusion hcon
    · split
      · intro hcon
        exact Except.noConfusion hcon
      · intro hcon
        simp at hcon

/-- Witness for C7: a 2-byte buffer against a 1x1 grayscale decoder trips
the assertion; the exact 1-byte buffer does not. -/
theorem read_image_precondition_witness :
    decL8.read_image [0, 0] = .error .assertFailed ∧
    decL8.read_image [0] ≠ .error .assertFailed :=
  ⟨(read_image_precondition decL8 1 [0, 0] rfl).1 (by decide),
   (read_image_precondition decL8 1 [0] rfl).2 rfl⟩

/-- C1: for one decoder state (same decoded bytes, same probed format),
fully draining the reader produced by `into_reader` yields exactly the
bytes `read_image` writes into a correctly sized buffer. -/
theorem into_reader_read_image_agree (d : JpegDecoder) (buf : List Nat)
    (r : JpegReader) (out : List Nat)
    (h1 : d.into_reader = .ok r)
    (h2 : d.read_image buf = .ok (.ok out)) :
    (JpegReader.read_to_end r []).2.1 = out := by
  cases hdec : d.decoder.decodeResult with
  | error e =>
      rw [JpegDecoder.into_reader, hdec] at h1
      exact absurd h1 (fun hcon => Except.noConfusion hcon)
  | ok data =>
      rw [JpegDecoder.into_reader, hdec] at h1
      simp only [JpegDecoder.read_image, hdec] at h2
      split at h2
      · split at h2
        · simp only [Except.ok.injEq] at h1 h2
          rw [← h1]
          simp [JpegReader.read_to_end, h2]
        · exact absurd h2 (fun hcon => Except.noConfusion hcon)
      · exact absurd h2 (fun hcon => Except.noConfusion hcon)

/-- Witness for C1 on a 1x1 grayscale decoder whose decode yields `[7]`. -/
theorem into_reader_read_image_agree_witness :
    (JpegReader.read_to_end (⟨[7], 0⟩ : JpegReader) []).2.1 = [7] :=
  into_reader_read_image_agree decL8 [0] ⟨[7], 0⟩ [7] rfl rfl

/-- C10: on the fast path (cursor at position 0, empty destination),
`JpegReader::read_to_end` hands the buffer over by swapping, and this
appends exactly the byte sequence, and returns exactly the byte count,
that the ordinary `Cursor::read_to_end` copy path would produce. -/
theorem reader_fast_path_agrees (r : JpegReader) (dest : List Nat)
    (h0 : r.pos = 0) (h1 : dest = []) :
    (JpegReader.read_to_end r dest).2.1 = (Cursor.read_to_end r dest).2.1 ∧
    (JpegReader.read_to_end r dest).2.2 = (Cursor.read_to_end r dest).2.2 := by
  subst h1
  simp [JpegReader.read_to_end, Cursor.read_to_end, h0]

/-- Witness for C10 on a concrete three-byte buffer. -/
theorem reader_fast_path_agrees_witness :
    (JpegReader.read_to_end (⟨[1, 2, 3], 0⟩ : JpegReader) []).2.1 =
      (Cursor.read_to_end ⟨[1, 2, 3], 0⟩ []).2.1 ∧
    (JpegReader.read_to_end (⟨[1, 2, 3], 0⟩ : JpegReader) []).2.2 =
      (Cursor.read_to_end ⟨[1, 2, 3], 0⟩ []).2.2 :=
  reader_fast_path_agrees ⟨[1, 2, 3], 0⟩ [] rfl rfl
